import Mathlib

/-
Verification of the auto-train-models tutorial notebook
(tutorials/03.auto-train-models.ipynb).

The notebook is a linear script: load the sklearn digits dataset, build an
AutoMLConfig argument record, submit a job to the external service, tabulate
the returned per-iteration metrics, register the best model and display a few
predictions.  The development below embeds each stage as an executable Lean
definition, translated from the notebook cells, and proves the claimed
properties about them.
-/

namespace AutoTrain

/-- Python values appearing at the notebook call sites: strings, ints,
numeric (float) literals modelled exactly as rationals, booleans, lists of
strings, feature matrices and label vectors. -/
inductive PyVal where
  | pstr (s : String)
  | pint (n : Int)
  | pnum (q : ℚ)
  | pbool (b : Bool)
  | plist (l : List String)
  | pmatrix (m : List (List Int))
  | pvec (v : List Int)
deriving DecidableEq

/-- isinstance(v, float) test used by the metrics filter: only pnum values
are floats. -/
def PyVal.isFloat : PyVal → Bool
  | .pnum _ => true
  | _ => false

/-- The dataset returned by sklearn datasets.load_digits(): a feature matrix
(data) and a label vector (target). -/
structure Digits where
  data : List (List Int)
  target : List Int
deriving DecidableEq

/-- Notebook cell 7: X_digits = digits.data[100:,:] -- the rows of the
feature matrix from index 100 on. -/
def X_digits (d : Digits) : List (List Int) := d.data.drop 100

/-- Notebook cell 7: y_digits = digits.target[100:] -- the label entries from
index 100 on. -/
def y_digits (d : Digits) : List Int := d.target.drop 100

/-- A concrete stand-in for the sklearn digits dataset: 1797 samples (the
documented size of the dataset), row i carrying the value i so that rows are
pairwise distinct. -/
def exDigits : Digits :=
  ⟨(List.range 1797).map (fun i => [Int.ofNat i]),
   (List.range 1797).map (fun i => Int.ofNat i)⟩

lemma exDigits_data_length : exDigits.data.length = 1797 := by
  rw [exDigits, List.length_map, List.length_range]

lemma exDigits_target_length : exDigits.target.length = 1797 := by
  rw [exDigits, List.length_map, List.length_range]

lemma X_digits_exDigits_length : (X_digits exDigits).length = 1697 := by
  rw [X_digits, List.length_drop, exDigits_data_length]

lemma y_digits_exDigits_length : (y_digits exDigits).length = 1697 := by
  rw [y_digits, List.length_drop, exDigits_target_length]

/-- The external AutoMLConfig constructor is opaque to this repository: the
configuration object is the list of named arguments, forwarded unchanged. -/
def AutoMLConfig (args : List (String × PyVal)) : List (String × PyVal) := args

/-- Notebook cell 11: the named arguments written at the AutoMLConfig call
site, with their literal values; X, y and path are the data arrays and the
project folder. -/
def autoMLArgs (X : List (List Int)) (y : List Int) : List (String × PyVal) :=
  [("task", .pstr "classification"),
   ("primary_metric", .pstr "AUC_weighted"),
   ("max_time_sec", .pint 12000),
   ("iterations", .pint 20),
   ("n_cross_validations", .pint 3),
   ("preprocess", .pbool false),
   ("exit_score", .pnum (9985/10000)),
   ("blacklist_algos", .plist ["kNN", "LinearSVM"]),
   ("X", .pmatrix X),
   ("y", .pvec y),
   ("path", .pstr "./automl-classifier")]

/-- Notebook cell 11: Automl_config = AutoMLConfig(task = ..., X = X_digits,
y = y_digits, path = project_folder). -/
def Automl_config (d : Digits) : List (String × PyVal) :=
  AutoMLConfig (autoMLArgs (X_digits d) (y_digits d))

/-- Notebook cell 10 (markdown): the settings table shown to the reader,
documenting the tutorial values; its exit_score row reads 0.995. -/
def settingsTable : List (String × PyVal) :=
  [("primary_metric", .pstr "AUC Weighted"),
   ("max_time_sec", .pint 12000),
   ("iterations", .pint 20),
   ("n_cross_validations", .pint 3),
   ("preprocess", .pbool false),
   ("exit_score", .pnum (995/1000)),
   ("blacklist_algos", .plist ["kNN", "LinearSVM"])]

set_option maxRecDepth 8000 in
/-- C1 -- the claim as written is false: X_digits omits the first 100 rows of
digits.data.  Row [0] is in the dataset but in neither X_digits nor, as a
label, y_digits. -/
theorem load_counterexample :
    [(0 : Int)] ∈ exDigits.data ∧ [(0 : Int)] ∉ X_digits exDigits ∧
    (0 : Int) ∈ exDigits.target ∧ (0 : Int) ∉ y_digits exDigits := by
  refine ⟨?_, ?_, ?_, ?_⟩ <;> decide

/-- C1 (amended): the load stage binds X_digits and y_digits to exactly the
rows of digits.data and entries of digits.target from index 100 onward; entry
i of each bound array is entry 100 + i of the source array, and each bound
array is 100 entries shorter than its source. -/
theorem load_is_tail_from_100 (d : Digits) (i : Nat) :
    (X_digits d).get? i = d.data.get? (100 + i) ∧
    (y_digits d).get? i = d.target.get? (100 + i) ∧
    (X_digits d).length = d.data.length - 100 ∧
    (y_digits d).length = d.target.length - 100 := by
  refine ⟨?_, ?_, ?_, ?_⟩ <;>
    simp [X_digits, y_digits, List.getElem?_drop, List.length_drop]

/-- C2 -- the claim as written is false: the AutoMLConfig constructor receives
eleven named arguments, not exactly eight; besides the eight configuration
fields it also receives X, y and path. -/
theorem config_counterexample :
    (Automl_config exDigits).length = 11 ∧
    "X" ∈ (Automl_config exDigits).map Prod.fst ∧
    "y" ∈ (Automl_config exDigits).map Prod.fst ∧
    "path" ∈ (Automl_config exDigits).map Prod.fst := by
  refine ⟨rfl, ?_, ?_, ?_⟩ <;>
    simp [Automl_config, AutoMLConfig, autoMLArgs]

/-- C2 (amended): the constructor receives the eight configuration fields with
exactly the literal values written at the call site, unmodified, together with
the data arrays X and y and the project folder path; the argument record is
forwarded with no processing. -/
theorem config_fields_forwarded (d : Digits) :
    (Automl_config d).lookup "task" = some (.pstr "classification") ∧
    (Automl_config d).lookup "primary_metric" = some (.pstr "AUC_weighted") ∧
    (Automl_config d).lookup "max_time_sec" = some (.pint 12000) ∧
    (Automl_config d).lookup "iterations" = some (.pint 20) ∧
    (Automl_config d).lookup "n_cross_validations" = some (.pint 3) ∧
    (Automl_config d).lookup "preprocess" = some (.pbool false) ∧
    (Automl_config d).lookup "exit_score" = some (.pnum (9985/10000)) ∧
    (Automl_config d).lookup "blacklist_algos" =
      some (.plist ["kNN", "LinearSVM"]) ∧
    (Automl_config d).lookup "X" = some (.pmatrix (X_digits d)) ∧
    (Automl_config d).lookup "y" = some (.pvec (y_digits d)) ∧
    (Automl_config d).lookup "path" = some (.pstr "./automl-classifier") ∧
    Automl_config d = autoMLArgs (X_digits d) (y_digits d) := by
  refine ⟨rfl, rfl, rfl, rfl, rfl, rfl, rfl, rfl, rfl, rfl, rfl, rfl⟩

/-- A child run returned by local_run.get_children(): its iteration property
(already parsed to an integer, as int(properties) does in the notebook) and
its metrics mapping. -/
structure ChildRun where
  iteration : Int
  metrics : List (String × PyVal)
deriving DecidableEq

/-- Notebook cell 17: the comprehension keeping exactly the float valued
metric entries, unchanged. -/
def floatMetrics (ms : List (String × PyVal)) : List (String × PyVal) :=
  ms.filter (fun kv => kv.2.isFloat)

/-- Python dict assignment d[k] = v: replace the value in place when the key
is present, append the new entry otherwise. -/
def dictSet (dct : List (Int × List (String × PyVal))) (k : Int)
    (v : List (String × PyVal)) : List (Int × List (String × PyVal)) :=
  if dct.any (fun kv => kv.1 == k) then
    dct.map (fun kv => if kv.1 == k then (k, v) else kv)
  else dct ++ [(k, v)]

/-- Notebook cell 17: metricslist, built by iterating over the children and
assigning the float filtered metrics of each run under its iteration key. -/
def metricslist (children : List ChildRun) :
    List (Int × List (String × PyVal)) :=
  children.foldl
    (fun dct r => dictSet dct r.iteration (floatMetrics r.metrics)) []

/-- A concrete pair of child runs with distinct iteration keys, one of them
holding a non float metric entry. -/
def exChildren : List ChildRun :=
  [⟨0, [("AUC_weighted", .pnum (9/10)), ("algo", .pstr "SVM")]⟩,
   ⟨1, [("AUC_weighted", .pnum (92/100))]⟩]

lemma foldl_dictSet_eq (children : List ChildRun) :
    ∀ acc : List (Int × List (String × PyVal)),
      (acc.map Prod.fst ++ children.map (fun r => r.iteration)).Nodup →
      children.foldl
          (fun dct r => dictSet dct r.iteration (floatMetrics r.metrics)) acc
        = acc ++ children.map (fun r => (r.iteration, floatMetrics r.metrics)) := by
  induction children with
  | nil => intro acc _; simp
  | cons r rs ih =>
    intro acc h
    have hmem : r.iteration ∉ acc.map Prod.fst := by
      rw [List.nodup_append] at h
      intro hc
      exact h.2.2 hc (by simp)
    have hnot : ¬ (acc.any (fun kv => kv.1 == r.iteration) = true) := by
      simp only [List.any_eq_true, beq_iff_eq]
      rintro ⟨kv, hkv, hk⟩
      exact hmem (hk ▸ List.mem_map_of_mem Prod.fst hkv)
    have hstep :
        dictSet acc r.iteration (floatMetrics r.metrics)
          = acc ++ [(r.iteration, floatMetrics r.metrics)] := by
      simp only [dictSet, if_neg hnot]
    have hrec := ih (acc ++ [(r.iteration, floatMetrics r.metrics)]) (by
      simpa [List.append_assoc] using h)
    simp only [List.foldl_cons, hstep, hrec, List.map_cons, List.append_assoc,
      List.singleton_append]

lemma metricslist_eq_map (children : List ChildRun)
    (h : (children.map (fun r => r.iteration)).Nodup) :
    metricslist children
      = children.map (fun r => (r.iteration, floatMetrics r.metrics)) := by
  simpa [metricslist] using foldl_dictSet_eq children [] (by simpa using h)

lemma lookup_map_run (children : List ChildRun)
    (h : (children.map (fun r => r.iteration)).Nodup)
    (r : ChildRun) (hr : r ∈ children) :
    (children.map (fun c => (c.iteration, floatMetrics c.metrics))).lookup
        r.iteration
      = some (floatMetrics r.metrics) := by
  induction children with
  | nil => cases hr
  | cons c cs ih =>
    rcases List.mem_cons.mp hr with hh | ht
    · subst hh; simp [List.lookup]
    · have hne : (r.iteration == c.iteration) = false := by
        rw [beq_eq_false_iff_ne]
        intro he
        have : r.iteration ∈ cs.map (fun x => x.iteration) :=
          List.mem_map_of_mem (fun x => x.iteration) ht
        exact (List.nodup_cons.mp (by simpa using h)).1 (he ▸ this)
      have htail := ih (List.nodup_cons.mp (by simpa using h)).2 ht
      simpa [List.lookup, hne] using htail

/-- C3: when the iteration keys of the children are pairwise distinct (one
child per service iteration), the metricslist table maps the iteration key of
every child run to exactly the float restriction of the metrics of that run,
and every entry of the table arises that way from some child run; a metric
entry survives the restriction exactly when its value is a float, and it is
kept unchanged. -/
theorem metrics_table_reformats (children : List ChildRun)
    (h : (children.map (fun r => r.iteration)).Nodup) :
    (∀ r ∈ children,
      (metricslist children).lookup r.iteration
        = some (r.metrics.filter (fun kv => kv.2.isFloat))) ∧
    (∀ p ∈ metricslist children,
      ∃ r ∈ children,
        p = (r.iteration, r.metrics.filter (fun kv => kv.2.isFloat))) ∧
    (∀ r ∈ children, ∀ kv ∈ r.metrics,
      (kv ∈ r.metrics.filter (fun x => x.2.isFloat) ↔ kv.2.isFloat = true)) := by
  refine ⟨?_, ?_, ?_⟩
  · intro r hr
    rw [metricslist_eq_map children h]
    exact lookup_map_run children h r hr
  · intro p hp
    rw [metricslist_eq_map children h] at hp
    rcases List.mem_map.mp hp with ⟨r, hr, hpr⟩
    exact ⟨r, hr, hpr.symm⟩
  · intro r _ kv hkv
    simp [List.mem_filter, hkv]

/-- C3 witness: on a concrete pair of child runs the table maps key 0 to the
metrics of the first run with the string valued entry dropped. -/
theorem metrics_table_reformats_witness :
    (metricslist exChildren).lookup (0 : Int)
      = some [("AUC_weighted", PyVal.pnum (9/10))] := by
  have h := (metrics_table_reformats exChildren (by decide)).1
    ⟨0, [("AUC_weighted", .pnum (9/10)), ("algo", .pstr "SVM")]⟩
    (by simp [exChildren])
  simpa [PyVal.isFloat] using h

/-- Notebook cell 21: font_color is red when the sample is misclassified and
black otherwise. -/
def font_color (actual predicted : Int) : String :=
  if actual ≠ predicted then "red" else "black"

/-- Notebook cell 21: clr_map is the inverse gray map when the sample is
misclassified and Greys otherwise. -/
def clr_map (actual predicted : Int) : String :=
  if actual ≠ predicted then "gray" else "Greys"

/-- Notebook cell 21: the rendering attributes emitted by the prediction
display loop; position counter i runs alongside the sample index s, the text
color and colormap are computed from y_digits at s and result at i. -/
def predictionDisplayAttrs (yd result : List Int) (idx : List Nat) :
    List (String × String) :=
  (idx.zip (List.range idx.length)).map (fun p =>
    (font_color (yd.getD p.1 0) (result.getD p.2 0),
     clr_map (yd.getD p.1 0) (result.getD p.2 0)))

/-- C4 -- the claim as written is false: two runs that differ only in the
predicted labels render different attributes for the same sample. -/
theorem display_attrs_counterexample :
    predictionDisplayAttrs [1] [1] [0] ≠ predictionDisplayAttrs [1] [2] [0] := by
  decide

/-- C4 (amended): the prediction display loop does branch on the comparison of
predicted and true label: the rendered sample gets black text on the Greys map
when they agree and red text on the inverse gray map when they differ. -/
theorem display_attrs_branch (yd result : List Int) (idx : List Nat)
    (k s i : Nat) (h : (idx.zip (List.range idx.length)).get? k = some (s, i)) :
    (predictionDisplayAttrs yd result idx).get? k =
      some (if yd.getD s 0 = result.getD i 0 then ("black", "Greys")
            else ("red", "gray")) := by
  have h' : (idx.zip (List.range idx.length))[k]? = some (s, i) := by
    simpa using h
  by_cases he : yd.getD s 0 = result.getD i 0 <;>
    simp [predictionDisplayAttrs, List.getElem?_map, h', font_color, clr_map,
      he, List.getD] <;>
    simp [List.getD] at he <;> simp [he]

/-- C4 witness: on a matching sample the attributes are black text on Greys. -/
theorem display_attrs_branch_witness :
    (predictionDisplayAttrs [5] [5] [0]).get? 0 = some ("black", "Greys") := by
  simpa using display_attrs_branch [5] [5] [0] 0 0 0 rfl

/-- C9: the exit_score forwarded to the service is the literal 0.9985, while
the settings table of the same notebook documents 0.995; the two values are
not equal. -/
theorem exit_score_mismatch (d : Digits) :
    (Automl_config d).lookup "exit_score" = some (.pnum (9985/10000)) ∧
    settingsTable.lookup "exit_score" = some (.pnum (995/1000)) ∧
    (9985/10000 : ℚ) ≠ 995/1000 := by
  refine ⟨rfl, rfl, by norm_num⟩

/-- Notebook cell 21: sample_indices is the random permutation of
range(X_digits.shape[0]) truncated to the first n = 30 entries; the
permutation itself is a parameter of the embedding. -/
def sample_indices (perm : List Nat) : List Nat := perm.take 30

/-- Notebook cell 21: test_samples = X_digits[sample_indices], the rows of X
selected by the chosen indices (numpy fancy indexing, defined for in bounds
indices). -/
def test_samples (X : List (List Int)) (idx : List Nat) : List (List Int) :=
  idx.filterMap (fun i => X.get? i)

/-- The bindings of the notebook that persist across cells: the two data
arrays, and the later derived configuration record and metrics table. -/
structure Env where
  X_digits : List (List Int)
  y_digits : List Int
  Automl_config : Option (List (String × PyVal))
  metricslist : Option (List (Int × List (String × PyVal)))
deriving DecidableEq

/-- Notebook cell 7: the data load stage binds the two arrays; nothing else is
bound yet. -/
def loadStage (d : Digits) : Env := ⟨X_digits d, y_digits d, none, none⟩

/-- Notebook cell 9: the sample display loop reads label and row at each of
the 30 sampled indices; it binds nothing new. -/
def sampleDisplayOut (e : Env) (perm : List Nat) : List (Int × List Int) :=
  (perm.take 30).filterMap (fun i =>
    match e.y_digits.get? i, e.X_digits.get? i with
    | some l, some row => some (l, row)
    | _, _ => none)

/-- Notebook cell 9 as a stage: the environment passes through unchanged and
the displayed pairs are emitted on the side. -/
def sampleDisplayStage (e : Env) (perm : List Nat) :
    Env × List (Int × List Int) :=
  (e, sampleDisplayOut e perm)

/-- Notebook cell 11 as a stage: builds Automl_config from the bound arrays. -/
def configStage (e : Env) : Env :=
  ⟨e.X_digits, e.y_digits,
   some (AutoMLConfig (autoMLArgs e.X_digits e.y_digits)), e.metricslist⟩

/-- Notebook cell 13 as a stage: experiment.submit binds local_run, an opaque
handle; it touches none of the modelled bindings. -/
def submitStage (e : Env) : Env := e

/-- Notebook cell 17 as a stage: binds metricslist from the children returned
by the service. -/
def resultsStage (e : Env) (children : List ChildRun) : Env :=
  ⟨e.X_digits, e.y_digits, e.Automl_config, some (metricslist children)⟩

/-- Notebook cell 21 as a stage: the prediction display loop emits rendering
attributes and passes the environment through unchanged. -/
def predictionDisplayStage (e : Env) (perm : List Nat) (result : List Int) :
    Env × List (String × String) :=
  (e, predictionDisplayAttrs e.y_digits result (sample_indices perm))

/-- The environments observed after each of the successive stages of the
notebook, in execution order. -/
def stageEnvs (d : Digits) (permA permB : List Nat) (children : List ChildRun)
    (result : List Int) : List Env :=
  let e1 := loadStage d
  let e2 := (sampleDisplayStage e1 permA).1
  let e3 := configStage e2
  let e4 := submitStage e3
  let e5 := resultsStage e4 children
  let e6 := (predictionDisplayStage e5 permB result).1
  [e1, e2, e3, e4, e5, e6]

/-- C5: when the library dataset has as many feature rows as labels, the two
arrays bound by the load stage have equal length, every later stage leaves
both arrays exactly as the load stage bound them, and the equal length
invariant therefore holds in every stage environment. -/
theorem sample_count_invariant (d : Digits)
    (hd : d.data.length = d.target.length)
    (permA permB : List Nat) (children : List ChildRun)
    (result : List Int) :
    ∀ e ∈ stageEnvs d permA permB children result,
      e.X_digits = X_digits d ∧ e.y_digits = y_digits d ∧
      e.X_digits.length = e.y_digits.length := by
  have hlen : (X_digits d).length = (y_digits d).length := by
    simp [X_digits, y_digits, hd]
  intro e he
  simp only [stageEnvs, sampleDisplayStage, predictionDisplayStage,
    List.mem_cons, List.not_mem_nil, or_false] at he
  rcases he with h | h | h | h | h | h <;> subst h <;>
    simp [loadStage, configStage, submitStage, resultsStage, hlen]

/-- C5 witness: on the concrete dataset the invariant holds of the final stage
environment. -/
theorem sample_count_invariant_witness :
    (loadStage exDigits).X_digits.length
      = (loadStage exDigits).y_digits.length := by
  have h := sample_count_invariant exDigits
    (by rw [exDigits_data_length, exDigits_target_length]) [] [] [] []
  exact (h (loadStage exDigits) (by simp [stageEnvs])).2.2

/-- C8: every index drawn by the test stage is an index into X_digits, every
predicted sample is a row of X_digits, and the row predicted at index s is row
100 + s of the full dataset; the 100 held out rows, at dataset indices below
100, are therefore never predicted. -/
theorem held_out_rows_not_predicted (d : Digits) (perm : List Nat)
    (hperm : perm.Perm (List.range (X_digits d).length)) :
    (∀ s ∈ sample_indices perm, s < (X_digits d).length) ∧
    (∀ t ∈ test_samples (X_digits d) (sample_indices perm), t ∈ X_digits d) ∧
    (∀ s ∈ sample_indices perm,
      (X_digits d).get? s = d.data.get? (100 + s)) := by
  have hmem : ∀ s ∈ sample_indices perm, s < (X_digits d).length := by
    intro s hs
    have hs' : s ∈ perm := List.take_subset 30 perm hs
    simpa using hperm.mem_iff.mp hs'
  refine ⟨hmem, ?_, ?_⟩
  · intro t ht
    rcases List.mem_filterMap.mp ht with ⟨i, _, hget⟩
    exact List.get?_mem hget
  · intro s _
    simp [X_digits, List.getElem?_drop]

/-- C8 witness: on the concrete dataset with the identity permutation, the
first predicted row is row 100 of the dataset. -/
theorem held_out_rows_not_predicted_witness :
    (X_digits exDigits).get? 0 = exDigits.data.get? 100 := by
  have h := (held_out_rows_not_predicted exDigits
      (List.range (X_digits exDigits).length) (List.Perm.refl _)).2.2
  refine h 0 ?_
  rw [sample_indices, List.take_range]
  refine List.mem_range.mpr ?_
  rw [X_digits_exDigits_length]
  norm_num

lemma test_samples_length (X : List (List Int)) (idx : List Nat)
    (h : ∀ i ∈ idx, i < X.length) :
    (test_samples X idx).length = idx.length := by
  induction idx with
  | nil => rfl
  | cons i is ih =>
    have hi : i < X.length := h i (List.mem_cons_self i is)
    have ih' := ih (fun j hj => h j (List.mem_cons_of_mem i hj))
    cases hx : X.get? i with
    | none => simp [List.get?_eq_getElem?, List.getElem?_eq_getElem hi] at hx
    | some row =>
      simp only [test_samples] at ih' ⊢
      simp only [List.filterMap_cons, hx, List.length_cons]
      omega

/-- C10: with the permutations ranging over the indices of X_digits, equal
array lengths and at least 30 rows, every index used by either display loop is
in bounds: sampled indices are below both array lengths, exactly 30 samples
are drawn, and the loop counter stays below the length of the prediction
result whenever that result has one entry per test sample. -/
theorem display_indexing_in_bounds (d : Digits) (permA permB : List Nat)
    (result : List Int)
    (hpermA : permA.Perm (List.range (X_digits d).length))
    (hpermB : permB.Perm (List.range (X_digits d).length))
    (hlen : (y_digits d).length = (X_digits d).length)
    (h30 : 30 ≤ (X_digits d).length)
    (hres : result.length
      = (test_samples (X_digits d) (sample_indices permB)).length) :
    (∀ i ∈ permA.take 30, i < (X_digits d).length ∧ i < (y_digits d).length) ∧
    (∀ s ∈ sample_indices permB,
      s < (X_digits d).length ∧ s < (y_digits d).length) ∧
    (sample_indices permB).length = 30 ∧
    (∀ j, j < (sample_indices permB).length → j < result.length) := by
  have hA : ∀ i ∈ permA.take 30, i < (X_digits d).length := by
    intro i hi
    have : i ∈ permA := List.take_subset 30 permA hi
    simpa using hpermA.mem_iff.mp this
  have hB : ∀ s ∈ sample_indices permB, s < (X_digits d).length := by
    intro s hs
    have : s ∈ permB := List.take_subset 30 permB hs
    simpa using hpermB.mem_iff.mp this
  have hBlen : permB.length = (X_digits d).length := by
    simpa using hpermB.length_eq
  have hcount : (sample_indices permB).length = 30 := by
    simp [sample_indices, hBlen]
    omega
  refine ⟨fun i hi => ⟨hA i hi, hlen ▸ hA i hi⟩,
    fun s hs => ⟨hB s hs, hlen ▸ hB s hs⟩, hcount, ?_⟩
  intro j hj
  have : result.length = (sample_indices permB).length := by
    rw [hres, test_samples_length (X_digits d) (sample_indices permB) hB]
  omega

/-- C10 witness: on the concrete dataset with identity permutations, exactly
30 samples are drawn. -/
theorem display_indexing_in_bounds_witness :
    (sample_indices (List.range (X_digits exDigits).length)).length = 30 := by
  have h := display_indexing_in_bounds exDigits
    (List.range (X_digits exDigits).length)
    (List.range (X_digits exDigits).length)
    (List.replicate
      (test_samples (X_digits exDigits)
        (sample_indices (List.range (X_digits exDigits).length))).length 0)
    (List.Perm.refl _) (List.Perm.refl _)
    (by rw [X_digits_exDigits_length, y_digits_exDigits_length])
    (by rw [X_digits_exDigits_length]; norm_num)
    (by simp)
  exact h.2.2.1

/-- Errors raised by the underlying SDK are plain messages; the script never
inspects them. -/
abbrev Err := String

/-- The opaque workspace handle returned by Workspace.from_config. -/
structure Workspace where
  name : String
deriving DecidableEq

/-- The opaque run handle returned by experiment.submit. -/
structure RunInfo where
  runId : Nat
deriving DecidableEq

/-- The outcomes of the SDK calls issued by the notebook, each either a value
or a raised error; the script itself decides nothing about them. -/
structure SDK where
  from_config : Except Err Workspace
  submit : Except Err RunInfo
  get_children : Except Err (List ChildRun)
  get_output : Except Err String
  register_model : Except Err String
  predict : Except Err (List Int)

/-- The notebook as one sequential computation: workspace load, data load,
configuration construction, submission, children retrieval, metrics
tabulation, best model retrieval, registration, prediction and the final
display attributes; every SDK failure short circuits the rest. -/
def scriptRun (d : Digits) (sdk : SDK) (perm : List Nat) :
    Except Err (List (String × String)) := do
  let _ws ← sdk.from_config
  let X := X_digits d
  let y := y_digits d
  let _cfg := AutoMLConfig (autoMLArgs X y)
  let _localRun ← sdk.submit
  let children ← sdk.get_children
  let _tbl := metricslist children
  let _best ← sdk.get_output
  let _modelId ← sdk.register_model
  let result ← sdk.predict
  pure (predictionDisplayAttrs y result (sample_indices perm))

/-- C6: the script catches nothing: whichever SDK call is the first to raise,
its error is the result of the whole script, unchanged; no recovery or
alternative branch runs. -/
theorem errors_propagate (d : Digits) (sdk : SDK) (perm : List Nat)
    (e : Err) :
    (sdk.from_config = .error e → scriptRun d sdk perm = .error e) ∧
    ((∃ w, sdk.from_config = .ok w) → sdk.submit = .error e →
      scriptRun d sdk perm = .error e) ∧
    ((∃ w, sdk.from_config = .ok w) → (∃ r, sdk.submit = .ok r) →
      sdk.get_children = .error e → scriptRun d sdk perm = .error e) ∧
    ((∃ w, sdk.from_config = .ok w) → (∃ r, sdk.submit = .ok r) →
      (∃ c, sdk.get_children = .ok c) → sdk.get_output = .error e →
      scriptRun d sdk perm = .error e) ∧
    ((∃ w, sdk.from_config = .ok w) → (∃ r, sdk.submit = .ok r) →
      (∃ c, sdk.get_children = .ok c) → (∃ b, sdk.get_output = .ok b) →
      sdk.register_model = .error e → scriptRun d sdk perm = .error e) ∧
    ((∃ w, sdk.from_config = .ok w) → (∃ r, sdk.submit = .ok r) →
      (∃ c, sdk.get_children = .ok c) → (∃ b, sdk.get_output = .ok b) →
      (∃ m, sdk.register_model = .ok m) → sdk.predict = .error e →
      scriptRun d sdk perm = .error e) := by
  refine ⟨?_, ?_, ?_, ?_, ?_, ?_⟩
  · intro h0
    unfold scriptRun
    rw [h0]
    rfl
  · rintro ⟨w, h0⟩ h1
    unfold scriptRun
    rw [h0, h1]
    rfl
  · rintro ⟨w, h0⟩ ⟨r, h1⟩ h2
    unfold scriptRun
    rw [h0, h1, h2]
    rfl
  · rintro ⟨w, h0⟩ ⟨r, h1⟩ ⟨c, h2⟩ h3
    unfold scriptRun
    rw [h0, h1, h2, h3]
    rfl
  · rintro ⟨w, h0⟩ ⟨r, h1⟩ ⟨c, h2⟩ ⟨b, h3⟩ h4
    unfold scriptRun
    rw [h0, h1, h2, h3, h4]
    rfl
  · rintro ⟨w, h0⟩ ⟨r, h1⟩ ⟨c, h2⟩ ⟨b, h3⟩ ⟨m, h4⟩ h5
    unfold scriptRun
    rw [h0, h1, h2, h3, h4, h5]
    rfl

/-- A concrete SDK run whose first call fails: the configuration file is
missing. -/
def failSDK : SDK :=
  ⟨.error "config.json missing", .ok ⟨1⟩, .ok [], .ok "best", .ok "model-id",
   .ok []⟩

/-- C6 witness: when the workspace load raises, the script result is exactly
that error. -/
theorem errors_propagate_witness :
    scriptRun exDigits failSDK [] = .error "config.json missing" :=
  (errors_propagate exDigits failSDK [] "config.json missing").1 rfl

/-- The observable actions of the notebook, including the kinds of action the
notebook could have issued but never does. -/
inductive Event where
  | setup
  | dataLoad
  | configBuild
  | submitJob
  | widgetView
  | metricsTable
  | registerBest
  | predictView
  | cancelJob
  | timeoutAbort
  | retryJob
  | concurrentWork
deriving DecidableEq

/-- Boolean success test on an SDK outcome. -/
def exceptOk {ε α : Type} (x : Except ε α) : Bool :=
  match x with
  | .ok _ => true
  | .error _ => false

/-- The event trace of the notebook: cells run top to bottom, each stage event
is emitted when its cell runs, and a raised error stops the rest of the
script. -/
def scriptTrace (sdk : SDK) : List Event :=
  Event.setup ::
    match sdk.from_config with
    | .error _ => []
    | .ok _ =>
      Event.dataLoad :: Event.configBuild :: Event.submitJob ::
        match sdk.submit with
        | .error _ => []
        | .ok _ =>
          Event.widgetView ::
            match sdk.get_children with
            | .error _ => []
            | .ok _ =>
              Event.metricsTable ::
                match sdk.get_output with
                | .error _ => []
                | .ok _ =>
                  match sdk.register_model with
                  | .error _ => []
                  | .ok _ =>
                    Event.registerBest ::
                      match sdk.predict with
                      | .error _ => []
                      | .ok _ => [Event.predictView]

/-- The full trace of a run in which every SDK call returns. -/
def notebookFullTrace : List Event :=
  [Event.setup, Event.dataLoad, Event.configBuild, Event.submitJob,
   Event.widgetView, Event.metricsTable, Event.registerBest,
   Event.predictView]

/-- C7: every trace of the script follows the fixed sequential order (it is an
initial segment of the full success trace), the submission is issued at most
once and exactly once whenever setup succeeds, the results stages appear only
when the submission call has returned successfully and always after the
submission event, and no cancellation, timeout, retry or concurrent action is
ever issued. -/
theorem sequential_trace (sdk : SDK) :
    scriptTrace sdk = notebookFullTrace.take (scriptTrace sdk).length ∧
    (scriptTrace sdk).count Event.submitJob ≤ 1 ∧
    (exceptOk sdk.from_config = true →
      (scriptTrace sdk).count Event.submitJob = 1) ∧
    (Event.metricsTable ∈ scriptTrace sdk → exceptOk sdk.submit = true) ∧
    (Event.predictView ∈ scriptTrace sdk → exceptOk sdk.submit = true) ∧
    (Event.metricsTable ∈ scriptTrace sdk →
      (scriptTrace sdk).indexOf Event.submitJob
        < (scriptTrace sdk).indexOf Event.metricsTable) ∧
    Event.cancelJob ∉ scriptTrace sdk ∧
    Event.timeoutAbort ∉ scriptTrace sdk ∧
    Event.retryJob ∉ scriptTrace sdk ∧
    Event.concurrentWork ∉ scriptTrace sdk := by
  obtain ⟨fc, sb, gc, go, rm, pr⟩ := sdk
  cases fc <;> cases sb <;> cases gc <;> cases go <;> cases rm <;>
    cases pr <;>
    simp only [scriptTrace, exceptOk, notebookFullTrace] <;> decide

/-- A concrete SDK run in which every call returns. -/
def okSDK : SDK :=
  ⟨.ok ⟨"ws"⟩, .ok ⟨1⟩, .ok exChildren, .ok "best", .ok "model-id", .ok [3]⟩

/-- C7 witness: on an all successful run the submission is issued exactly once
and no cancellation event occurs. -/
theorem sequential_trace_witness :
    (scriptTrace okSDK).count Event.submitJob = 1 ∧
    Event.cancelJob ∉ scriptTrace okSDK := by
  refine ⟨(sequential_trace okSDK).2.2.1 (by decide), ?_⟩
  exact (sequential_trace okSDK).2.2.2.2.2.2.1

end AutoTrain
